import Mathlib

/-!
Verification of the PuGoing Home Assistant integration core
(`custom_components/pugoing_home`): the token lifecycle of the cloud API client
(`api.py`), the device/scene aggregation pipeline (`pugoing_api/api.py`),
the dimmer/curtain command encoding (`api.py`), and the lamp state
decode/debounce logic (`light.py`).

Conventions of the shallow embedding:
* Timestamps (`time.time()`, `datetime.now()`) are rationals measured in
  seconds.
* Python `int(x)` on nonnegative float expressions, and Python `//`, are
  modelled with integer division on `ℤ` (the `Int` division of Lean floors for a
  positive divisor, exactly like Python `//`).  The float expressions
  `int((k - 153) / 3.47)`, `int(p * 3.47 + 153)`, `int(b * 2.54)`,
  `v * 255 // 100`, `round(v / 100 * 255)` and
  `int(mn + (mx - mn) * (v / 100))` were checked against CPython doubles on
  every integer input in the reachable ranges and coincide with the exact
  rational computations used here.
* Fallible operations return `Except`; an exception corresponds to
  `Except.error`.
* The HTTP layer is abstracted away: transport functions are modelled by
  their response-envelope handling, and the aggregator takes the per-host
  fetch outcomes as function-valued parameters (oracles).
-/

/-- Error kinds of `pugoing_api/error.py` plus the plain `Exception` and
`KeyError` escapes used by `pugoing_api/api.py`. -/
inductive PuErr where
  | deviceOffline : PuErr
  | noPermission : PuErr
  | invalidResponse : String → PuErr
  | pyError : String → PuErr
  deriving DecidableEq

/-- Exception kinds raised by `api.py` (`IntegrationBlueprintApiClient*Error`)
together with the Python built-in `ValueError` used for local validation. -/
inductive ClientErr where
  | authenticationErr : String → ClientErr
  | communicationErr : String → ClientErr
  | valueErr : String → ClientErr
  deriving DecidableEq

/-- A vendor JSON response envelope as consumed by `control_device`
(`pugoing_api/api.py`): only the `ack` flag and `msg` field are inspected;
both can be absent (`result.get`). -/
structure ControlEnvelope where
  ack : Option ℤ
  msg : Option String
  deriving DecidableEq

/-- Scene record (`pugoing_api` JSON payload, opaque to the aggregator). -/
structure PScene where
  sid : String
  sna : String
  deriving DecidableEq

/-- A vendor JSON response envelope as consumed by `fetch_scenes_by_sn`:
`ack`, `msg`, and the `data.list` payload (absent field modelled as `none`,
whose access would raise a `KeyError`). -/
structure ScenesEnvelope where
  ack : Option ℤ
  msg : Option String
  dataList : Option (List PScene)
  deriving DecidableEq

/-- Envelope handling of `control_device` (`pugoing_api/api.py` lines
115-138): on `ack == 0` the two recognized vendor messages raise typed
errors; any other message is only logged (`lib_logger.error`) and the
envelope is returned; on any other `ack` the envelope is returned. -/
def controlDeviceRespond (env : ControlEnvelope) : Except PuErr ControlEnvelope :=
  if env.ack = some 0 then
    let errorMessage := env.msg.getD "Unknown error"
    if errorMessage = "主机不在线" then .error .deviceOffline
    else if errorMessage = "您没有此权限访问该主机" then .error .noPermission
    else .ok env
  else .ok env

/-- Envelope handling of `fetch_scenes_by_sn` (`pugoing_api/api.py` lines
89-112): `ack == 1` returns `data.list` (a missing key raises); otherwise the
two recognized vendor messages raise typed errors and any other message is
logged and an empty list is returned. -/
def fetchScenesRespond (env : ScenesEnvelope) : Except PuErr (List PScene) :=
  if env.ack = some 1 then
    match env.dataList with
    | some l => .ok l
    | none => .error (.pyError "KeyError: list")
  else
    let errorMessage := env.msg.getD "Unknown error"
    if errorMessage = "主机不在线" then .error .deviceOffline
    else if errorMessage = "您没有此权限访问该主机" then .error .noPermission
    else .ok []

/-! ### Token manager (`api.py` lines 23-24, 89-108) -/

/-- `TOKEN_LIFETIME = 24 * 3600` (seconds). -/
def TOKEN_LIFETIME : ℚ := 24 * 3600

/-- `TOKEN_BUF = 5 * 60` (seconds). -/
def TOKEN_BUF : ℚ := 5 * 60

/-- The token-holding fields of `IntegrationBlueprintApiClient`:
`_token` and `_token_ts`. -/
structure ClientState where
  token : Option String
  tokenTs : Option ℚ
  deriving DecidableEq

/-- The guard of `_async_ensure_token` (`api.py` lines 101-108): re-login is
needed when no token is held, no issuance timestamp is held, or the age
exceeds `TOKEN_LIFETIME - TOKEN_BUF`. -/
def needsRelogin (st : ClientState) (now : ℚ) : Bool :=
  st.token.isNone || match st.tokenTs with
    | none => true
    | some ts => decide (now - ts > TOKEN_LIFETIME - TOKEN_BUF)

/-- `_async_ensure_token` composed with `_async_login`: if the guard fires,
perform the login (whose outcome is the `loginResult` parameter), replacing
the token and timestamp wholesale and counting one re-login; a failed login
surfaces as `IntegrationBlueprintApiClientAuthenticationError`.  The `ℕ`
component counts the re-logins performed before the remote call proceeds. -/
def ensureToken (st : ClientState) (now : ℚ) (loginResult : Except PuErr String) :
    Except ClientErr (ClientState × ℕ) :=
  if needsRelogin st now then
    match loginResult with
    | .ok tok => .ok (⟨some tok, some now⟩, 1)
    | .error _ => .error (.authenticationErr "login failed")
  else .ok (st, 0)

/-! ### Dimmer / curtain command encoding (`api.py`) -/

/-- The `Dkey` command keys (`pugoing_api/const.py`) used by the encode
steps modelled here. -/
inductive Dkey where
  | LAMP_OPEN | LAMP_CLOSE | LAMP_BRI | LAMP_CCT | LAMP_RGB
  | CL_OPEN | CL_PAUSE | CL_CLOSE | CL_POS
  deriving DecidableEq

/-- ASCII uppercase of one character (`str.upper` restricted to the ASCII
range used by hex strings). -/
def pyUpperChar (c : Char) : Char :=
  if 97 ≤ c.toNat ∧ c.toNat ≤ 122 then Char.ofNat (c.toNat - 32) else c

/-- `str.upper` on a hex color string. -/
def pyUpper (s : String) : String :=
  ⟨s.data.map pyUpperChar⟩

/-- Brightness encode (`api.py` line 175): `int(brightness * 2.54)`,
i.e. `b * 254 / 100` rounded toward zero; on `0 ≤ b ≤ 100` this equals the
integer division below (checked against CPython on all inputs 0..100). -/
def briEncode (b : ℤ) : ℤ := b * 254 / 100

/-- Kelvin color-temperature encode (`api.py` line 189):
`int((color_temp - 153) / 3.47)`; on 2000..6500 this equals the integer
division below (checked against CPython on all inputs). -/
def cctEncodeKelvin (k : ℤ) : ℤ := (k - 153) * 100 / 347

/-- Percentage color-temperature encode (`api.py` line 198):
`int(color_temp * 3.47 + 153)`; on 0..100 this equals the integer division
below (checked against CPython on all inputs). -/
def cctEncodePct (p : ℤ) : ℤ := (347 * p + 15300) / 100

/-- The encode step of `async_set_dimmer_state` (`api.py` lines 162-237):
builds the ordered list of `(command key, optional value)` pairs that are
then issued as sequential `control_device` calls, or raises `ValueError`
before any control call is issued.  An empty list means the early return
(zero transport calls). -/
def setDimmerStateTasks (onSwitch : Option Bool) (brightness : Option ℤ)
    (colorTemp : Option ℤ) (rgbHex : Option String) :
    Except ClientErr (List (Dkey × Option String)) := do
  let tasks0 : List (Dkey × Option String) :=
    match onSwitch with
    | some true => [(.LAMP_OPEN, none)]
    | some false => [(.LAMP_CLOSE, none)]
    | none => []
  let tasks1 ←
    match brightness with
    | none => pure tasks0
    | some b =>
        if 0 ≤ b ∧ b ≤ 100 then
          pure (tasks0 ++ [(.LAMP_BRI, some (toString (briEncode b)))])
        else .error (.valueErr "Brightness must be 0-100")
  let tasks2 ←
    match colorTemp with
    | none => pure tasks1
    | some ct =>
        if 2000 ≤ ct ∧ ct ≤ 6500 then
          pure (tasks1 ++ [(.LAMP_CCT, some (toString (cctEncodeKelvin ct)))])
        else if 0 ≤ ct ∧ ct ≤ 100 then
          pure (tasks1 ++ [(.LAMP_CCT, some (toString (cctEncodePct ct)))])
        else .error (.valueErr "Color temp must be Kelvin 2000-6500 or percentage 0-100")
  let tasks3 ←
    match rgbHex with
    | none => pure tasks2
    | some s =>
        if s.length = 6 then
          pure (tasks2 ++ [(.LAMP_RGB, some (pyUpper s))])
        else .error (.valueErr "RGB must be a 6-digit hex string")
  pure tasks3

/-- Command resolution of `async_set_curtain_state` (`api.py` lines
360-410): a recognized named action maps to its fixed key; otherwise a
supplied position maps to `CL_POS`; otherwise `ValueError`.  The extra value
is `str(position)` exactly when the key is `CL_POS` (the source expression
`extra_value or None` is the identity here since `str(position)` is never
the empty string). -/
def curtainCommand (action : Option String) (position : Option ℤ) :
    Except ClientErr (Dkey × Option String) := do
  let key ←
    if action = some "open" then pure Dkey.CL_OPEN
    else if action = some "close" then pure Dkey.CL_CLOSE
    else if action = some "stop" then pure Dkey.CL_PAUSE
    else if position.isSome then pure Dkey.CL_POS
    else .error (.valueErr "Invalid curtain command")
  let extraValue : Option String :=
    match key, position with
    | Dkey.CL_POS, some p => some (toString p)
    | _, _ => none
  pure (key, extraValue)

/-! ### Plain lamp entity: decode and debounce (`light.py`, `const.py`) -/

/-- `LAMP_STATE_DEBOUNCE_SECONDS = 5` (`const.py` line 11). -/
def LAMP_STATE_DEBOUNCE_SECONDS : ℚ := 5

/-- The slice of a polled device record that `PuGoingLampLight` reads. -/
structure LampDevice where
  yid : String
  dinfo : Option String
  deriving DecidableEq

/-- `PuGoingLampLight._parse_state`: the device is on when its `dinfo`
begins with the "on" marker `开` (`str.startswith`; a missing `dinfo` never
matches). -/
def parseLampState (d : LampDevice) : Bool :=
  "开".data.isPrefixOf (d.dinfo.getD "").data

/-- The mutable entity fields of `PuGoingLampLight`: `_state` and
`_last_manual_control`. -/
structure LampEntityState where
  state : Bool
  lastManualControl : Option ℚ
  deriving DecidableEq

/-- The fall-through of `PuGoingLampLight.is_on`: re-derive `_state` from
the latest polled record when one exists. -/
def lampAdopt (st : LampEntityState) (latest : Option LampDevice) :
    Bool × LampEntityState :=
  match latest with
  | some d => (parseLampState d, ⟨parseLampState d, st.lastManualControl⟩)
  | none => (st.state, st)

/-- `PuGoingLampLight.is_on` (`light.py` lines 147-158): within
`LAMP_STATE_DEBOUNCE_SECONDS` of the last manual control the locally-set
`_state` is displayed; otherwise the state re-derives from the latest poll.
Returns the displayed value and the updated entity fields. -/
def lampIsOn (st : LampEntityState) (now : ℚ) (latest : Option LampDevice) :
    Bool × LampEntityState :=
  match st.lastManualControl with
  | some t =>
      if now - t < LAMP_STATE_DEBOUNCE_SECONDS then (st.state, st)
      else lampAdopt st latest
  | none => lampAdopt st latest

/-- The successful path of `PuGoingLampLight.async_turn_on` (`light.py`
lines 165-177): set `_state = True` and stamp `_last_manual_control`. -/
def lampTurnOn (_st : LampEntityState) (now : ℚ) : LampEntityState :=
  ⟨true, some now⟩

/-! ### RGBCW lamp decode (`light.py` lines 259-300) -/

/-- Hex digit value of a character, by code point (`0-9`, `a-f`, `A-F`). -/
def charHexVal (c : Char) : Option ℕ :=
  let n := c.toNat
  if 48 ≤ n ∧ n ≤ 57 then some (n - 48)
  else if 97 ≤ n ∧ n ≤ 102 then some (n - 87)
  else if 65 ≤ n ∧ n ≤ 70 then some (n - 55)
  else none

/-- ASCII whitespace accepted by Python `int(str, 16)` around the digits. -/
def pySpace (c : Char) : Bool :=
  let n := c.toNat
  n = 32 || n = 9 || n = 10 || n = 13 || n = 11 || n = 12

/-- Python `int(s, 16)` on a two-character slice: two hex digits, or one hex
digit with a leading/trailing whitespace character or a leading sign
(CPython also strips unicode whitespace and accepts unicode digits; those
are not modelled).  `none` models the `ValueError`. -/
def pyIntHex2 : List Char → Option ℤ
  | [a, b] =>
      match charHexVal a, charHexVal b with
      | some va, some vb => some (16 * (va : ℤ) + vb)
      | some va, none => if pySpace b then some (va : ℤ) else none
      | none, some vb =>
          if pySpace a then some (vb : ℤ)
          else if a = '+' then some (vb : ℤ)
          else if a = '-' then some (-(vb : ℤ))
          else none
      | none, none => none
  | _ => none

/-- Python `round` on the exact value: round half to even. -/
def pyRoundQ (x : ℚ) : ℤ :=
  if x - ⌊x⌋ < 1/2 then ⌊x⌋
  else if 1/2 < x - ⌊x⌋ then ⌊x⌋ + 1
  else if ⌊x⌋ % 2 = 0 then ⌊x⌋ else ⌊x⌋ + 1

/-- Brightness decode scale (`light.py` line 274): `v * 255 // 100`. -/
def scale255 (v : ℤ) : ℤ := v * 255 / 100

/-- RGB channel decode scale (`light.py` lines 280-282):
`round(v / 100 * 255)`; the CPython double computation coincides with the
exact rational rounding on every reachable input. -/
def rgbScale (v : ℤ) : ℤ := pyRoundQ ((v : ℚ) / 100 * 255)

/-- Color-temperature decode (`light.py` lines 275-278):
`int(mn + (mx - mn) * (v / 100))`; truncation coincides with the floor
below while the mapped value is nonnegative (true for the host framework
Kelvin range on every reachable input). -/
def tempScale (minT maxT : ℤ) (v : ℤ) : ℤ := minT + (maxT - minT) * v / 100

/-- The decoded-attribute fields of `PuGoingRGBCWLight`: `_state`,
`_brightness`, `_color_temp`, `_rgb_color`, `_last_update`,
`_last_manual_control`. -/
structure RGBCWState where
  state : Bool
  brightness : Option ℤ
  colorTemp : Option ℤ
  rgbColor : Option (ℤ × ℤ × ℤ)
  lastUpdate : Option ℚ
  lastManualControl : Option ℚ
  deriving DecidableEq

/-- The debounce guard inside `_parse_rgbcw` (`light.py` lines 286-290):
ignore polled data within 10 seconds of the last manual control. -/
def rgbcwDebounceActive (lmc : Option ℚ) (now : ℚ) : Bool :=
  match lmc with
  | some t => decide (now - t < 10)
  | none => false

/-- The `"RGBCW:"` payload marker. -/
def rgbcwMarker : List Char := ['R', 'G', 'B', 'C', 'W', ':']

/-- `PuGoingRGBCWLight._parse_rgbcw` (`light.py` lines 259-300) on the
character list of the `dnlp` payload: check the marker, slice the fixed
positions, parse the five numeric fields base-16 (a `ValueError` is caught
and leaves the state unchanged), compare the power slice with the literal
`"03"`, and adopt the decoded values unless the manual-control debounce is
active.  `minT`/`maxT` are the configured Kelvin bounds of the host framework
(`DEFAULT_MIN_KELVIN`/`DEFAULT_MAX_KELVIN`). -/
def parseRGBCWChars (minT maxT : ℤ) (st : RGBCWState) (raw : List Char)
    (now : ℚ) : RGBCWState :=
  if rgbcwMarker.isPrefixOf raw then
    if (raw.drop 6).length < 14 then st
    else
      match pyIntHex2 (((raw.drop 6).drop 4).take 2),
          pyIntHex2 (((raw.drop 6).drop 6).take 2),
          pyIntHex2 (((raw.drop 6).drop 8).take 2),
          pyIntHex2 (((raw.drop 6).drop 10).take 2),
          pyIntHex2 (((raw.drop 6).drop 12).take 2) with
      | some bv, some ctv, some rv, some gv, some bbv =>
          if rgbcwDebounceActive st.lastManualControl now then st
          else
            { state := decide ((raw.drop 6).take 2 = ['0', '3'])
              brightness := some (scale255 bv)
              colorTemp := some (tempScale minT maxT ctv)
              rgbColor := some (rgbScale rv, rgbScale gv, rgbScale bbv)
              lastUpdate := some now
              lastManualControl := st.lastManualControl }
      | _, _, _, _, _ => st
  else st

/-- `_parse_rgbcw` on the device record: `str(device.get("dnlp", ""))`. -/
def parseRGBCW (minT maxT : ℤ) (st : RGBCWState) (dnlp : Option String)
    (now : ℚ) : RGBCWState :=
  parseRGBCWChars minT maxT st (dnlp.getD "").data now

/-! ### Room/device aggregator (`pugoing_api/api.py` lines 157-216) and the
snapshot builder (`api.py` lines 57-75) -/

/-- A room entry of the topology (`sn_room["room"]` elements). -/
structure PRoom where
  name : String
  deriving DecidableEq

/-- One topology entry: a host `sn` and its room list. -/
structure SnRoom where
  sn : String
  room : List PRoom
  deriving DecidableEq

/-- The slice of a device record the aggregator touches: `dpanel` (may be
absent) and the `sn` tag it overwrites. -/
structure PDevice where
  yid : String
  dpanel : Option String
  sn : String
  deriving DecidableEq

/-- `categorized_devices.setdefault(panel_type, []).append(device)`:
append to the entry of `key` if present, else add a new entry at the end
(dicts preserve insertion order). -/
def dictAppend (acc : List (String × List PDevice)) (key : String)
    (d : PDevice) : List (String × List PDevice) :=
  match acc with
  | [] => [(key, [d])]
  | (k, vs) :: rest =>
      if k = key then (k, vs ++ [d]) :: rest
      else (k, vs) :: dictAppend rest key d

/-- `merged_dict[key].extend(value)` on a `defaultdict(list)`. -/
def dictExtend (acc : List (String × List PDevice)) (key : String)
    (vs : List PDevice) : List (String × List PDevice) :=
  match acc with
  | [] => [(key, vs)]
  | (k, ws) :: rest =>
      if k = key then (k, ws ++ vs) :: rest
      else (k, ws) :: dictExtend rest key vs

/-- The categorization loop of `categorize_devices_by_panel` (lines
157-166): tag each device with the host `sn` and bucket it under
`device.get("dpanel", "Unknown")`. -/
def categorizeDevices (sn : String) (devs : List PDevice) :
    List (String × List PDevice) :=
  devs.foldl (fun acc d => dictAppend acc (d.dpanel.getD "Unknown")
    { d with sn := sn }) []

/-- `categorize_devices_by_panel`: fetch the devices of the room (outcome given
by the oracle `fd`) and categorize them; a fetch failure propagates. -/
def categorizeDevicesByPanel (fd : String → String → Except PuErr (List PDevice))
    (sn roomName : String) : Except PuErr (List (String × List PDevice)) :=
  (fd sn roomName).map (categorizeDevices sn)

/-- `merge_dicts` (lines 169-174). -/
def mergeDicts (ds : List (List (String × List PDevice))) :
    List (String × List PDevice) :=
  ds.foldl (fun acc d => d.foldl (fun a kv => dictExtend a kv.1 kv.2) acc) []

/-- The `"event"` object of the empty-topology result (lines 183-184):
`{"header": None, "payload": None}`. -/
structure PEvent where
  header : Option String
  payload : Option String
  deriving DecidableEq

/-- The dict returned by `process_rooms`, with each key optional: the empty
topology yields only an `event` key; the normal path yields only `devices`
and `scenes` keys. -/
structure ProcessResult where
  devices : Option (List (String × List PDevice))
  scenes : Option (List (String × List PScene))
  event : Option PEvent
  deriving DecidableEq

/-- The empty-topology result of `process_rooms` (lines 183-184). -/
def emptyTopologyResult : ProcessResult :=
  { devices := none, scenes := none, event := some ⟨none, none⟩ }

/-- The inner room loop of `process_rooms` (lines 201-208): the categorized devices of each room are appended when the fetch succeeds and is non-empty;
a failure is logged and skipped. -/
def roomLoop (fd : String → String → Except PuErr (List PDevice)) (sn : String) :
    List PRoom → List (List (String × List PDevice)) →
    List (List (String × List PDevice))
  | [], acc => acc
  | r :: rest, acc =>
      roomLoop fd sn rest
        (match categorizeDevicesByPanel fd sn r.name with
         | .ok d => if d = [] then acc else acc ++ [d]
         | .error _ => acc)

/-- The host loop of `process_rooms` (lines 189-208): per host, the scene
fetch is attempted (failures logged and skipped, empty lists omitted), then
every room is processed. -/
def hostLoop (fs : String → Except PuErr (List PScene))
    (fd : String → String → Except PuErr (List PDevice)) :
    List SnRoom → List (List (String × List PDevice)) →
    List (String × List PScene) →
    List (List (String × List PDevice)) × List (String × List PScene)
  | [], devAcc, scAcc => (devAcc, scAcc)
  | h :: rest, devAcc, scAcc =>
      hostLoop fs fd rest (roomLoop fd h.sn h.room devAcc)
        (match fs h.sn with
         | .ok s => if s = [] then scAcc else scAcc ++ [(h.sn, s)]
         | .error _ => scAcc)

/-- `process_rooms` (lines 177-216), over the topology-fetch outcome and
the per-host/per-room fetch oracles: a topology failure propagates; an empty
topology returns the bare `event` dict; otherwise the loops run and the
merged devices and collected scenes are returned. -/
def processRooms (fs : String → Except PuErr (List PScene))
    (fd : String → String → Except PuErr (List PDevice))
    (topo : Except PuErr (List SnRoom)) : Except PuErr ProcessResult :=
  match topo with
  | .error e => .error e
  | .ok l =>
      if l = [] then .ok emptyTopologyResult
      else
        let r := hostLoop fs fd l [] []
        .ok { devices := some (mergeDicts r.1), scenes := some r.2, event := none }

/-- The snapshot dict built by `async_get_data` (`api.py` lines 71-75) from
a `process_rooms` result: missing `devices`/`scenes` keys default to empty
(`result.get("devices", ...)`, `result.get("scenes", ...)`). -/
structure GetDataSnapshot where
  devicesByType : List (String × List PDevice)
  scenesBySn : List (String × List PScene)
  token : Option String
  deriving DecidableEq

/-- The dict-building step of `async_get_data`. -/
def buildGetData (token : Option String) (r : ProcessResult) : GetDataSnapshot :=
  { devicesByType := r.devices.getD []
    scenesBySn := r.scenes.getD []
    token := token }

/-- The scene contribution a host adds to `scenes_all`: its fetched list
when the fetch succeeds and is non-empty. -/
def sceneContrib (fs : String → Except PuErr (List PScene)) (h : SnRoom) :
    Option (String × List PScene) :=
  match fs h.sn with
  | .ok s => if s = [] then none else some (h.sn, s)
  | .error _ => none

/-- The device-dict contribution a single room adds to `devices_all`. -/
def roomContrib (fd : String → String → Except PuErr (List PDevice))
    (sn : String) (r : PRoom) : Option (List (String × List PDevice)) :=
  match categorizeDevicesByPanel fd sn r.name with
  | .ok d => if d = [] then none else some d
  | .error _ => none

/-- All device-dict contributions of one host, in room order. -/
def hostDevContribs (fd : String → String → Except PuErr (List PDevice))
    (h : SnRoom) : List (List (String × List PDevice)) :=
  h.room.filterMap (roomContrib fd h.sn)

/-- Concrete three-host topology for evaluating the aggregator. -/
def wTopo : List SnRoom := [⟨"h1", [⟨"r1"⟩]⟩, ⟨"h2", [⟨"r2"⟩]⟩, ⟨"h3", []⟩]

/-- Concrete scene-fetch outcomes: host `"h2"` fails, the others succeed. -/
def wScenes : String → Except PuErr (List PScene) := fun sn =>
  if sn = "h2" then .error .deviceOffline else .ok [⟨"s" ++ sn, "scene"⟩]

/-- Concrete device-fetch outcomes: every room yields one lamp. -/
def wDevs : String → String → Except PuErr (List PDevice) := fun sn room =>
  .ok [⟨"d" ++ sn ++ room, some "Lamp", ""⟩]

/-! ## Helper lemmas -/

/-- The refresh threshold evaluates to 86100 seconds. -/
theorem token_threshold_eq : TOKEN_LIFETIME - TOKEN_BUF = 86100 := by
  norm_num [TOKEN_LIFETIME, TOKEN_BUF]

/-! ## C1: token refresh happens exactly when the token is absent or stale -/

/-- C1.  With a successful login available, `_async_ensure_token` performs
exactly one re-login if and only if no token is held or the age of the held token
exceeds `TOKEN_LIFETIME - TOKEN_BUF = 86100` seconds, replacing the token
wholesale; a strictly younger token triggers zero re-logins and leaves the
state untouched.  The hypothesis is the invariant that `_token` and
`_token_ts` are set together (they are only ever assigned together in
`_async_login`). -/
theorem token_relogin_iff_stale (st : ClientState) (now : ℚ) (tok : String)
    (hinv : st.token = none ↔ st.tokenTs = none) :
    ∃ st1 n, ensureToken st now (.ok tok) = .ok (st1, n) ∧ n ≤ 1 ∧
      (n = 1 ↔ st.token = none ∨ ∃ ts, st.tokenTs = some ts ∧ now - ts > 86100) ∧
      (n = 0 ↔ st.token ≠ none ∧ ∃ ts, st.tokenTs = some ts ∧ now - ts ≤ 86100) ∧
      (n = 1 → st1 = ⟨some tok, some now⟩) ∧ (n = 0 → st1 = st) := by
  rcases st with ⟨tk, tts⟩
  rcases tts with _ | ts
  · have htk : tk = none := hinv.mpr rfl
    subst htk
    exact ⟨⟨some tok, some now⟩, 1, rfl, le_refl 1, by simp, by simp, fun _ => rfl,
      by simp⟩
  · rcases tk with _ | v
    · simp at hinv
    · have hred : needsRelogin ⟨some v, some ts⟩ now
          = decide (now - ts > TOKEN_LIFETIME - TOKEN_BUF) := rfl
    
      by_cases hexp : now - ts > 86100
      · have htrue : needsRelogin ⟨some v, some ts⟩ now = true := by
          rw [hred, token_threshold_eq, decide_eq_true_eq]
          exact hexp
        refine ⟨⟨some tok, some now⟩, 1, ?_, le_refl 1, ?_, ?_, fun _ => rfl, by simp⟩
        · unfold ensureToken
          rw [if_pos htrue]
        · simp only [true_iff]
          exact Or.inr ⟨ts, rfl, hexp⟩
        · simp only [iff_def]
          constructor
          · intro h; exact absurd h one_ne_zero
          · rintro ⟨-, ts', hts', hle⟩
            injection hts' with h'
            subst h'
            exact absurd hexp (not_lt.mpr hle)
      · have hfalse : needsRelogin ⟨some v, some ts⟩ now = false := by
          rw [hred, token_threshold_eq, decide_eq_false_iff_not]
          exact hexp
        refine ⟨⟨some v, some ts⟩, 0, ?_, by norm_num, ?_, ?_, by simp, fun _ => rfl⟩
        · unfold ensureToken
          rw [if_neg (by simp [hfalse])]
        · simp only [iff_def]
          constructor
          · intro h; exact absurd h.symm one_ne_zero
          · rintro (h | ⟨ts', hts', hgt⟩)
            · exact absurd h (by simp)
            · injection hts' with h'
              subst h'
              exact absurd hgt hexp
        · simp only [true_iff]
          exact ⟨by simp, ts, rfl, not_lt.mp hexp⟩

/-- C1 witness: a token issued at time 0 is not refreshed at age 86100 and
is refreshed at age 86101. -/
theorem token_relogin_iff_stale_witness :
    ((⟨some "t", some 0⟩ : ClientState).token = none ↔
      (⟨some "t", some 0⟩ : ClientState).tokenTs = none) ∧
    (∃ st1 n, ensureToken ⟨some "t", some 0⟩ 86100 (.ok "n") = .ok (st1, n) ∧ n ≤ 1 ∧
      (n = 1 ↔ (⟨some "t", some 0⟩ : ClientState).token = none ∨
        ∃ ts, (⟨some "t", some 0⟩ : ClientState).tokenTs = some ts ∧ (86100 : ℚ) - ts > 86100) ∧
      (n = 0 ↔ (⟨some "t", some 0⟩ : ClientState).token ≠ none ∧
        ∃ ts, (⟨some "t", some 0⟩ : ClientState).tokenTs = some ts ∧ (86100 : ℚ) - ts ≤ 86100) ∧
      (n = 1 → st1 = ⟨some "n", some 86100⟩) ∧ (n = 0 → st1 = ⟨some "t", some 0⟩)) ∧
    ensureToken ⟨some "t", some 0⟩ 86100 (.ok "n") = .ok (⟨some "t", some 0⟩, 0) ∧
    ensureToken ⟨some "t", some 0⟩ 86101 (.ok "n") = .ok (⟨some "n", some 86101⟩, 1) := by
  refine ⟨by simp, token_relogin_iff_stale ⟨some "t", some 0⟩ 86100 "n" (by simp), ?_, ?_⟩
  · unfold ensureToken
    rw [if_neg]
    simp only [needsRelogin, Option.isNone_some, Bool.false_or]
    rw [token_threshold_eq]
    norm_num
  · unfold ensureToken
    rw [if_pos]
    simp only [needsRelogin, Option.isNone_some, Bool.false_or]
    rw [token_threshold_eq]
    norm_num

/-! ## C2: lamp display debounce after a manual turn_on -/

/-- C2.  After a successful `async_turn_on` at `t0`, `is_on` keeps
displaying the locally-set `True` (state untouched) against a poll record
decoding to off while `now - t0 < 5` seconds, and re-derives the displayed
state from the latest poll record (here `False`) once `now - t0 ≥ 5`. -/
theorem lamp_debounce_window (st : LampEntityState) (t0 now : ℚ) (d : LampDevice)
    (hoff : parseLampState d = false) :
    (now - t0 < 5 → lampIsOn (lampTurnOn st t0) now (some d) = (true, lampTurnOn st t0)) ∧
    (5 ≤ now - t0 → lampIsOn (lampTurnOn st t0) now (some d) = (false, ⟨false, some t0⟩)) := by
  constructor
  · intro h
    show (if now - t0 < (5 : ℚ) then ((true, ⟨true, some t0⟩) : Bool × LampEntityState)
      else lampAdopt ⟨true, some t0⟩ (some d)) = (true, ⟨true, some t0⟩)
    rw [if_pos h]
  · intro h
    show (if now - t0 < (5 : ℚ) then ((true, ⟨true, some t0⟩) : Bool × LampEntityState)
      else lampAdopt ⟨true, some t0⟩ (some d)) = (false, ⟨false, some t0⟩)
    rw [if_neg (not_lt.mpr h)]
    show (parseLampState d, (⟨parseLampState d, some t0⟩ : LampEntityState)) =
      (false, ⟨false, some t0⟩)
    rw [hoff]

/-- C2 witness: a poll decoding to off 3 seconds after the manual turn-on is
not displayed; the same poll 6 seconds after is. -/
theorem lamp_debounce_window_witness :
    parseLampState ⟨"y", some "关"⟩ = false ∧ ((3 : ℚ) - 0 < 5) ∧ ((5 : ℚ) ≤ 6 - 0) ∧
    lampIsOn (lampTurnOn ⟨false, none⟩ 0) 3 (some ⟨"y", some "关"⟩) =
      (true, lampTurnOn ⟨false, none⟩ 0) ∧
    lampIsOn (lampTurnOn ⟨false, none⟩ 0) 6 (some ⟨"y", some "关"⟩) =
      (false, ⟨false, some 0⟩) :=
  ⟨rfl, by norm_num, by norm_num,
   (lamp_debounce_window ⟨false, none⟩ 0 3 ⟨"y", some "关"⟩ rfl).1 (by norm_num),
   (lamp_debounce_window ⟨false, none⟩ 0 6 ⟨"y", some "关"⟩ rfl).2 (by norm_num)⟩

/-! ## C4: transport handling of `ack == 0` envelopes (corrected) -/

/-- C4 counterexample.  The claim says every `ack == 0` envelope with an
unrecognized message makes the transport raise a `CommunicationError`; in
the source, `control_device` merely logs the message and returns the
envelope, so the call reports success. -/
theorem control_ack_zero_swallows_unrecognized :
    controlDeviceRespond ⟨some 0, some "boom"⟩ = .ok ⟨some 0, some "boom"⟩ ∧
    fetchScenesRespond ⟨some 0, some "boom", some [⟨"s1", "n"⟩]⟩ = .ok [] :=
  ⟨rfl, rfl⟩

/-- C4 amended.  On an `ack == 0` envelope both `control_device` and
`fetch_scenes_by_sn` raise `DeviceOfflineError` for the exact message
`主机不在线` and `NoPermissionError` for the exact message
`您没有此权限访问该主机`; any other message is logged and swallowed:
`control_device` returns the envelope and `fetch_scenes_by_sn` returns the
empty list. -/
theorem ack_zero_error_mapping (env : ControlEnvelope) (senv : ScenesEnvelope)
    (hack : env.ack = some 0) (hsack : senv.ack = some 0) :
    (env.msg.getD "Unknown error" = "主机不在线" →
      controlDeviceRespond env = .error .deviceOffline) ∧
    (env.msg.getD "Unknown error" = "您没有此权限访问该主机" →
      controlDeviceRespond env = .error .noPermission) ∧
    (env.msg.getD "Unknown error" ≠ "主机不在线" →
      env.msg.getD "Unknown error" ≠ "您没有此权限访问该主机" →
      controlDeviceRespond env = .ok env) ∧
    (senv.msg.getD "Unknown error" = "主机不在线" →
      fetchScenesRespond senv = .error .deviceOffline) ∧
    (senv.msg.getD "Unknown error" = "您没有此权限访问该主机" →
      fetchScenesRespond senv = .error .noPermission) ∧
    (senv.msg.getD "Unknown error" ≠ "主机不在线" →
      senv.msg.getD "Unknown error" ≠ "您没有此权限访问该主机" →
      fetchScenesRespond senv = .ok []) := by
  have hs1 : ¬ senv.ack = some 1 := by simp [hsack]
  refine ⟨?_, ?_, ?_, ?_, ?_, ?_⟩ <;> intros <;>
    simp_all [controlDeviceRespond, fetchScenesRespond]

/-- C4 witness: concrete envelopes exercising all three message cases for
both transport operations. -/
theorem ack_zero_error_mapping_witness :
    ((⟨some 0, some "主机不在线"⟩ : ControlEnvelope).ack = some 0) ∧
    ((⟨some 0, some "其他错误", none⟩ : ScenesEnvelope).ack = some 0) ∧
    controlDeviceRespond ⟨some 0, some "主机不在线"⟩ = .error .deviceOffline ∧
    fetchScenesRespond ⟨some 0, some "其他错误", none⟩ = .ok [] :=
  ⟨rfl, rfl,
   (ack_zero_error_mapping ⟨some 0, some "主机不在线"⟩ ⟨some 0, some "其他错误", none⟩
      rfl rfl).1 rfl,
   (ack_zero_error_mapping ⟨some 0, some "主机不在线"⟩ ⟨some 0, some "其他错误", none⟩
      rfl rfl).2.2.2.2.2 (by decide) (by decide)⟩

/-! ## C5/C6: dimmer encode formulas (corrected: truncation, not rounding) -/

/-- The brightness encode is the floor of the exact product `b * 2.54`. -/
theorem briEncode_eq_floor (b : ℤ) : briEncode b = ⌊(b : ℚ) * (254/100)⌋ := by
  have h : ((b * 254 : ℤ) : ℚ) / ((100 : ℕ) : ℚ) = (b : ℚ) * (254/100) := by
    push_cast; ring
  calc briEncode b = b * 254 / ((100 : ℕ) : ℤ) := by rw [briEncode]; norm_num
    _ = ⌊((b * 254 : ℤ) : ℚ) / ((100 : ℕ) : ℚ)⌋ := (Rat.floor_intCast_div_natCast _ _).symm
    _ = ⌊(b : ℚ) * (254/100)⌋ := by rw [h]

/-- The Kelvin encode is the floor of the exact quotient `(k - 153) / 3.47`. -/
theorem cctEncodeKelvin_eq_floor (k : ℤ) :
    cctEncodeKelvin k = ⌊((k : ℚ) - 153) / (347/100)⌋ := by
  have h : (((k - 153) * 100 : ℤ) : ℚ) / ((347 : ℕ) : ℚ) = ((k : ℚ) - 153) / (347/100) := by
    push_cast; ring
  calc cctEncodeKelvin k = (k - 153) * 100 / ((347 : ℕ) : ℤ) := by
        rw [cctEncodeKelvin]; norm_num
    _ = ⌊(((k - 153) * 100 : ℤ) : ℚ) / ((347 : ℕ) : ℚ)⌋ :=
        (Rat.floor_intCast_div_natCast _ _).symm
    _ = ⌊((k : ℚ) - 153) / (347/100)⌋ := by rw [h]

/-- The percentage encode is the floor of the exact value `p * 3.47 + 153`. -/
theorem cctEncodePct_eq_floor (p : ℤ) :
    cctEncodePct p = ⌊(p : ℚ) * (347/100) + 153⌋ := by
  have h : ((347 * p + 15300 : ℤ) : ℚ) / ((100 : ℕ) : ℚ) = (p : ℚ) * (347/100) + 153 := by
    push_cast; ring
  calc cctEncodePct p = (347 * p + 15300) / ((100 : ℕ) : ℤ) := by
        rw [cctEncodePct]; norm_num
    _ = ⌊((347 * p + 15300 : ℤ) : ℚ) / ((100 : ℕ) : ℚ)⌋ :=
        (Rat.floor_intCast_div_natCast _ _).symm
    _ = ⌊(p : ℚ) * (347/100) + 153⌋ := by rw [h]

/-- Shape of the encode step when only a brightness is supplied. -/
theorem setDimmerStateTasks_bri (b : ℤ) :
    setDimmerStateTasks none (some b) none none =
      if 0 ≤ b ∧ b ≤ 100 then .ok [(Dkey.LAMP_BRI, some (toString (briEncode b)))]
      else .error (.valueErr "Brightness must be 0-100") := by
  by_cases h : 0 ≤ b ∧ b ≤ 100 <;>
    simp [setDimmerStateTasks, h, pure, Except.pure, bind, Except.bind]

/-- Shape of the encode step when only a color temperature is supplied. -/
theorem setDimmerStateTasks_ct (ct : ℤ) :
    setDimmerStateTasks none none (some ct) none =
      if 2000 ≤ ct ∧ ct ≤ 6500 then
        .ok [(Dkey.LAMP_CCT, some (toString (cctEncodeKelvin ct)))]
      else if 0 ≤ ct ∧ ct ≤ 100 then
        .ok [(Dkey.LAMP_CCT, some (toString (cctEncodePct ct)))]
      else .error (.valueErr "Color temp must be Kelvin 2000-6500 or percentage 0-100") := by
  by_cases h1 : 2000 ≤ ct ∧ ct ≤ 6500
  · simp [setDimmerStateTasks, h1, pure, Except.pure, bind, Except.bind]
  · by_cases h2 : 0 ≤ ct ∧ ct ≤ 100 <;>
      simp [setDimmerStateTasks, h1, h2, pure, Except.pure, bind, Except.bind]

/-- C5 counterexample.  At Kelvin input 2001 the source encodes
`int((2001 - 153) / 3.47) = 532`, while the claimed formula
`round((2001 - 153) / 3.47)` yields 533. -/
theorem color_temp_encode_truncates :
    setDimmerStateTasks none none (some 2001) none =
      .ok [(Dkey.LAMP_CCT, some "532")] ∧
    round (((2001 : ℚ) - 153) / (347/100)) = 533 ∧ ("532" : String) ≠ "533" :=
  ⟨rfl, by norm_num [round_eq], by decide⟩

/-- C5 amended.  A color-temperature input in `[2000, 6500]` encodes as
`⌊(k - 153) / 3.47⌋` (truncation, not rounding); an input in `[0, 100]`
encodes as `⌊p * 3.47 + 153⌋`; an input outside both ranges raises
`ValueError` so that no control call is issued. -/
theorem color_temp_encode_rule (ct : ℤ) :
    (2000 ≤ ct ∧ ct ≤ 6500 →
      setDimmerStateTasks none none (some ct) none =
        .ok [(Dkey.LAMP_CCT, some (toString (cctEncodeKelvin ct)))] ∧
      cctEncodeKelvin ct = ⌊((ct : ℚ) - 153) / (347/100)⌋) ∧
    (¬(2000 ≤ ct ∧ ct ≤ 6500) → 0 ≤ ct ∧ ct ≤ 100 →
      setDimmerStateTasks none none (some ct) none =
        .ok [(Dkey.LAMP_CCT, some (toString (cctEncodePct ct)))] ∧
      cctEncodePct ct = ⌊(ct : ℚ) * (347/100) + 153⌋) ∧
    (¬(2000 ≤ ct ∧ ct ≤ 6500) → ¬(0 ≤ ct ∧ ct ≤ 100) →
      setDimmerStateTasks none none (some ct) none =
        .error (.valueErr "Color temp must be Kelvin 2000-6500 or percentage 0-100")) := by
  refine ⟨fun h1 => ⟨?_, cctEncodeKelvin_eq_floor ct⟩,
    fun h1 h2 => ⟨?_, cctEncodePct_eq_floor ct⟩, fun h1 h2 => ?_⟩
  · rw [setDimmerStateTasks_ct, if_pos h1]
  · rw [setDimmerStateTasks_ct, if_neg h1, if_pos h2]
  · rw [setDimmerStateTasks_ct, if_neg h1, if_neg h2]

/-- C5 witness: 6500 uses the Kelvin formula, 100 the percentage formula,
and 150 and 1500 both raise the validation error. -/
theorem color_temp_encode_rule_witness :
    ((2000 : ℤ) ≤ 6500 ∧ (6500 : ℤ) ≤ 6500) ∧
    setDimmerStateTasks none none (some 6500) none =
      .ok [(Dkey.LAMP_CCT, some (toString (cctEncodeKelvin 6500)))] ∧
    toString (cctEncodeKelvin 6500) = "1829" ∧
    setDimmerStateTasks none none (some 100) none =
      .ok [(Dkey.LAMP_CCT, some (toString (cctEncodePct 100)))] ∧
    toString (cctEncodePct 100) = "500" ∧
    setDimmerStateTasks none none (some 150) none =
      .error (.valueErr "Color temp must be Kelvin 2000-6500 or percentage 0-100") ∧
    setDimmerStateTasks none none (some 1500) none =
      .error (.valueErr "Color temp must be Kelvin 2000-6500 or percentage 0-100") :=
  ⟨by decide, ((color_temp_encode_rule 6500).1 (by decide)).1, rfl,
   ((color_temp_encode_rule 100).2.1 (by decide) (by decide)).1, rfl,
   (color_temp_encode_rule 150).2.2 (by decide) (by decide),
   (color_temp_encode_rule 1500).2.2 (by decide) (by decide)⟩

/-- C6 counterexample.  At brightness input 5 the source encodes
`int(5 * 2.54) = 12`, while the claimed formula `round(5 * 2.54)` yields
13. -/
theorem brightness_encode_truncates :
    setDimmerStateTasks none (some 5) none none =
      .ok [(Dkey.LAMP_BRI, some "12")] ∧
    round ((5 : ℚ) * (254/100)) = 13 ∧ ("12" : String) ≠ "13" :=
  ⟨rfl, by norm_num [round_eq], by decide⟩

/-- C6 amended.  A brightness input in `[0, 100]` encodes as
`⌊b * 2.54⌋` (truncation, not rounding) on the 0-254 scale and becomes the
value of the brightness command; an input outside the range raises `ValueError`
so that no control call is issued. -/
theorem brightness_encode_rule (b : ℤ) :
    (0 ≤ b ∧ b ≤ 100 →
      setDimmerStateTasks none (some b) none none =
        .ok [(Dkey.LAMP_BRI, some (toString (briEncode b)))] ∧
      briEncode b = ⌊(b : ℚ) * (254/100)⌋) ∧
    (¬(0 ≤ b ∧ b ≤ 100) →
      setDimmerStateTasks none (some b) none none =
        .error (.valueErr "Brightness must be 0-100")) := by
  refine ⟨fun h => ⟨?_, briEncode_eq_floor b⟩, fun h => ?_⟩
  · rw [setDimmerStateTasks_bri, if_pos h]
  · rw [setDimmerStateTasks_bri, if_neg h]

/-- C6 witness: brightness 50 encodes to the value "127"; brightness 101
raises the validation error. -/
theorem brightness_encode_rule_witness :
    ((0 : ℤ) ≤ 50 ∧ (50 : ℤ) ≤ 100) ∧
    setDimmerStateTasks none (some 50) none none =
      .ok [(Dkey.LAMP_BRI, some (toString (briEncode 50)))] ∧
    toString (briEncode 50) = "127" ∧ ¬((0 : ℤ) ≤ 101 ∧ (101 : ℤ) ≤ 100) ∧
    setDimmerStateTasks none (some 101) none none =
      .error (.valueErr "Brightness must be 0-100") :=
  ⟨by decide, ((brightness_encode_rule 50).1 (by decide)).1, rfl, by decide,
   (brightness_encode_rule 101).2 (by decide)⟩

/-! ## C9: curtain command resolution -/

/-- C9.  A named action in `{open, close, stop}` resolves to its fixed
command key with no value even when a position is also supplied; otherwise a
supplied position resolves to `CL_POS` carrying `str(position)`; otherwise
the call raises `ValueError` before any network call. -/
theorem curtain_command_resolution (action : Option String) (position : Option ℤ) :
    (action = some "open" → curtainCommand action position = .ok (Dkey.CL_OPEN, none)) ∧
    (action = some "close" → curtainCommand action position = .ok (Dkey.CL_CLOSE, none)) ∧
    (action = some "stop" → curtainCommand action position = .ok (Dkey.CL_PAUSE, none)) ∧
    (action ≠ some "open" → action ≠ some "close" → action ≠ some "stop" →
      ∀ p : ℤ, position = some p → 0 ≤ p → p ≤ 100 →
        curtainCommand action position = .ok (Dkey.CL_POS, some (toString p))) ∧
    (action ≠ some "open" → action ≠ some "close" → action ≠ some "stop" →
      position = none →
      curtainCommand action position = .error (.valueErr "Invalid curtain command")) := by
  refine ⟨?_, ?_, ?_, ?_, ?_⟩
  · intro h
    simp [curtainCommand, h, pure, Except.pure, bind, Except.bind]
  · intro h
    simp [curtainCommand, h, pure, Except.pure, bind, Except.bind]
  · intro h
    simp [curtainCommand, h, pure, Except.pure, bind, Except.bind]
  · intro h1 h2 h3 p hp _ _
    subst hp
    simp [curtainCommand, h1, h2, h3, pure, Except.pure, bind, Except.bind]
  · intro h1 h2 h3 hp
    subst hp
    simp [curtainCommand, h1, h2, h3, pure, Except.pure, bind, Except.bind]

/-- C9 witness: `open` with a position resolves to the open key without a
value; a bare position 65 resolves to the position key with value "65"; no
resolvable action or position raises. -/
theorem curtain_command_resolution_witness :
    ((some "open" : Option String) = some "open") ∧
    curtainCommand (some "open") (some 65) = .ok (Dkey.CL_OPEN, none) ∧
    curtainCommand none (some 65) = .ok (Dkey.CL_POS, some (toString (65 : ℤ))) ∧
    curtainCommand (some "nudge") none = .error (.valueErr "Invalid curtain command") :=
  ⟨rfl, (curtain_command_resolution (some "open") (some 65)).1 rfl,
   (curtain_command_resolution none (some 65)).2.2.2.1 (by decide) (by decide)
     (by decide) 65 rfl (by decide) (by decide),
   (curtain_command_resolution (some "nudge") none).2.2.2.2 (by decide) (by decide)
     (by decide) rfl⟩

/-! ## C3/C10: aggregation fault tolerance and the empty topology -/

/-- The room loop collects exactly the per-room contributions of rooms whose
fetch succeeded with a non-empty categorization, in order. -/
theorem roomLoop_eq (fd : String → String → Except PuErr (List PDevice))
    (sn : String) (rl : List PRoom) (acc : List (List (String × List PDevice))) :
    roomLoop fd sn rl acc = acc ++ rl.filterMap (roomContrib fd sn) := by
  induction rl generalizing acc with
  | nil => simp [roomLoop]
  | cons r rest ih =>
      have hstep : roomLoop fd sn (r :: rest) acc =
          roomLoop fd sn rest (match categorizeDevicesByPanel fd sn r.name with
            | .ok d => if d = [] then acc else acc ++ [d]
            | .error _ => acc) := rfl
      rw [hstep, List.filterMap_cons]
      cases h : categorizeDevicesByPanel fd sn r.name with
      | ok d =>
          by_cases hd : d = [] <;> simp [h, hd, roomContrib, ih]
      | error e => simp [h, roomContrib, ih]

/-- The host loop collects exactly the per-host scene contributions and the
concatenated per-room device contributions, in order. -/
theorem hostLoop_eq (fs : String → Except PuErr (List PScene))
    (fd : String → String → Except PuErr (List PDevice)) (l : List SnRoom)
    (da : List (List (String × List PDevice))) (sa : List (String × List PScene)) :
    hostLoop fs fd l da sa =
      (da ++ l.flatMap (hostDevContribs fd), sa ++ l.filterMap (sceneContrib fs)) := by
  induction l generalizing da sa with
  | nil => simp [hostLoop]
  | cons h rest ih =>
      have hstep : hostLoop fs fd (h :: rest) da sa =
          hostLoop fs fd rest (roomLoop fd h.sn h.room da)
            (match fs h.sn with
             | .ok s => if s = [] then sa else sa ++ [(h.sn, s)]
             | .error _ => sa) := rfl
      rw [hstep, ih, roomLoop_eq, List.flatMap_cons, List.filterMap_cons]
      cases hsc : fs h.sn with
      | ok s =>
          by_cases hs : s = [] <;>
            simp [hsc, hs, sceneContrib, hostDevContribs, List.append_assoc]
      | error e => simp [hsc, sceneContrib, hostDevContribs, List.append_assoc]

/-- C3.  A topology-fetch failure fails the whole poll with the same error;
when the topology fetch succeeds, `process_rooms` always completes without
raising, its scene map holds exactly the hosts whose scene fetch succeeded
non-empty, and its device map merges exactly the per-room contributions
whose fetch succeeded non-empty — so a scene failure of one host or a
device failure of one room only omits that contribution. -/
theorem poll_fault_tolerance (fs : String → Except PuErr (List PScene))
    (fd : String → String → Except PuErr (List PDevice)) :
    (∀ e, processRooms fs fd (.error e) = .error e) ∧
    (∀ l, processRooms fs fd (.ok l) =
      .ok (if l = [] then emptyTopologyResult
        else { devices := some (mergeDicts (l.flatMap (hostDevContribs fd)))
               scenes := some (l.filterMap (sceneContrib fs))
               event := none })) := by
  constructor
  · intro e; rfl
  · intro l
    by_cases hl : l = []
    · subst hl; rfl
    · simp only [processRooms, if_neg hl, hostLoop_eq, List.nil_append]

/-- C3 witness: three hosts where the scene fetch of host two raises; hosts one
and three still contribute scenes, both rooms contribute devices, and the
poll returns `.ok`; a topology failure propagates. -/
theorem poll_fault_tolerance_witness :
    processRooms wScenes wDevs (.ok wTopo) =
      .ok { devices := some (mergeDicts (wTopo.flatMap (hostDevContribs wDevs)))
            scenes := some (wTopo.filterMap (sceneContrib wScenes))
            event := none } ∧
    processRooms wScenes wDevs (.ok wTopo) =
      .ok { devices := some [("Lamp",
              [⟨"dh1r1", some "Lamp", "h1"⟩, ⟨"dh2r2", some "Lamp", "h2"⟩])]
            scenes := some [("h1", [⟨"sh1", "scene"⟩]), ("h3", [⟨"sh3", "scene"⟩])]
            event := none } ∧
    processRooms wScenes wDevs (.error .deviceOffline) = .error .deviceOffline := by
  refine ⟨?_, by rfl, rfl⟩
  have h := (poll_fault_tolerance wScenes wDevs).2 wTopo
  rw [if_neg (by decide)] at h
  exact h

/-- C10.  On a successful topology fetch returning the empty list,
`process_rooms` returns the bare event dict (no `devices`/`scenes` keys,
`header` and `payload` both `None`), and the snapshot builder of
`async_get_data` still succeeds, defaulting both maps to empty. -/
theorem empty_topology_snapshot (fs : String → Except PuErr (List PScene))
    (fd : String → String → Except PuErr (List PDevice)) (tok : Option String) :
    processRooms fs fd (.ok []) = .ok emptyTopologyResult ∧
    emptyTopologyResult.devices = none ∧
    emptyTopologyResult.scenes = none ∧
    emptyTopologyResult.event = some ⟨none, none⟩ ∧
    buildGetData tok emptyTopologyResult = ⟨[], [], tok⟩ :=
  ⟨rfl, rfl, rfl, rfl, rfl⟩

/-! ## C7/C8: RGBCW payload decode -/

/-- A parsed hex digit is below 16. -/
theorem charHexVal_lt (c : Char) (v : ℕ) (h : charHexVal c = some v) : v < 16 := by
  simp only [charHexVal] at h
  split_ifs at h with h1 h2 h3 <;> injection h with h' <;> omega

/-- The only hex digit of value 0 is the character `0`. -/
theorem charHexVal_zero (c : Char) (h : charHexVal c = some 0) : c = '0' := by
  have hn : c.toNat = 48 := by
    simp only [charHexVal] at h
    split_ifs at h with h1 h2 h3 <;> injection h with h' <;> omega
  have hofn := Char.ofNat_toNat c
  rw [hn] at hofn
  rw [← hofn]

/-- The only hex digit of value 3 is the character `3`. -/
theorem charHexVal_three (c : Char) (h : charHexVal c = some 3) : c = '3' := by
  have hn : c.toNat = 51 := by
    simp only [charHexVal] at h
    split_ifs at h with h1 h2 h3 <;> injection h with h' <;> omega
  have hofn := Char.ofNat_toNat c
  rw [hn] at hofn
  rw [← hofn]

/-- `int(s, 16)` on two hex digits yields the base-16 value. -/
theorem pyIntHex2_pair (a b : Char) (va vb : ℕ) (ha : charHexVal a = some va)
    (hb : charHexVal b = some vb) :
    pyIntHex2 [a, b] = some (16 * (va : ℤ) + vb) := by
  simp [pyIntHex2, ha, hb]

/-- On two hex digits, the power check of the source (the raw slice compared with
the literal string `03`) agrees with the value-level test `byte = 3`. -/
theorem powerPair_eq (a b : Char) (va vb : ℕ) (ha : charHexVal a = some va)
    (hb : charHexVal b = some vb) :
    decide ([a, b] = ['0', '3']) = decide (16 * va + vb = 3) := by
  rw [decide_eq_decide]
  constructor
  · intro h
    simp only [List.cons.injEq, and_true] at h
    obtain ⟨ea, eb⟩ := h
    subst ea
    subst eb
    have hva : va = 0 := by
      have : (some 0 : Option ℕ) = some va := (show charHexVal '0' = some 0 from rfl) ▸ ha
      injection this with h'
      omega
    have hvb : vb = 3 := by
      have : (some 3 : Option ℕ) = some vb := (show charHexVal '3' = some 3 from rfl) ▸ hb
      injection this with h'
      omega
    omega
  · intro h
    have la := charHexVal_lt a va ha
    have lb := charHexVal_lt b vb hb
    have hva : va = 0 := by omega
    have hvb : vb = 3 := by omega
    subst hva
    subst hvb
    rw [charHexVal_zero a ha, charHexVal_three b hb]

/-- The brightness decode is the floor of the exact value `v / 100 * 255`. -/
theorem scale255_eq_floor (v : ℤ) : scale255 v = ⌊(v : ℚ) / 100 * 255⌋ := by
  have h : ((v * 255 : ℤ) : ℚ) / ((100 : ℕ) : ℚ) = (v : ℚ) / 100 * 255 := by
    push_cast; ring
  calc scale255 v = v * 255 / ((100 : ℕ) : ℤ) := by rw [scale255]; norm_num
    _ = ⌊((v * 255 : ℤ) : ℚ) / ((100 : ℕ) : ℚ)⌋ := (Rat.floor_intCast_div_natCast _ _).symm
    _ = ⌊(v : ℚ) / 100 * 255⌋ := by rw [h]

/-- The color-temperature decode is the floor of the exact linear map of
`v / 100` onto `[mn, mx]`. -/
theorem tempScale_eq_floor (mn mx v : ℤ) :
    tempScale mn mx v = ⌊(mn : ℚ) + ((mx : ℚ) - (mn : ℚ)) * ((v : ℚ) / 100)⌋ := by
  have h : ((mx : ℚ) - (mn : ℚ)) * ((v : ℚ) / 100) =
      (((mx - mn) * v : ℤ) : ℚ) / ((100 : ℕ) : ℚ) := by
    push_cast; ring
  rw [tempScale, h, Int.floor_int_add, Rat.floor_intCast_div_natCast]
  norm_num

/-- C7 amended.  On a payload `RGBCW:` followed by fourteen hex characters
(and anything after), outside the manual-control debounce the decode adopts:
power on iff the power byte equals 3 (the source compares the two raw
characters with the literal `03`, which on hex digits is the same test);
brightness `⌊v * 255 / 100⌋` (floor, not the claimed rounding);
color temperature `⌊mn + (mx - mn) * (v / 100)⌋`, the truncated linear map
onto the configured Kelvin range; and R, G, B `round(v / 100 * 255)` with
the Python half-to-even rounding (`rgbScale`). -/
theorem rgbcw_decode_fields (minT maxT : ℤ) (st : RGBCWState) (now : ℚ)
    (rest : List Char) (c0 c1 c2 c3 c4 c5 c6 c7 c8 c9 c10 c11 c12 c13 : Char)
    (v0 v1 v4 v5 v6 v7 v8 v9 v10 v11 v12 v13 : ℕ)
    (h0 : charHexVal c0 = some v0) (h1 : charHexVal c1 = some v1)
    (_h2 : (charHexVal c2).isSome = true) (_h3 : (charHexVal c3).isSome = true)
    (h4 : charHexVal c4 = some v4) (h5 : charHexVal c5 = some v5)
    (h6 : charHexVal c6 = some v6) (h7 : charHexVal c7 = some v7)
    (h8 : charHexVal c8 = some v8) (h9 : charHexVal c9 = some v9)
    (h10 : charHexVal c10 = some v10) (h11 : charHexVal c11 = some v11)
    (h12 : charHexVal c12 = some v12) (h13 : charHexVal c13 = some v13)
    (hnd : rgbcwDebounceActive st.lastManualControl now = false) :
    parseRGBCWChars minT maxT st
      (rgbcwMarker ++ (c0 :: c1 :: c2 :: c3 :: c4 :: c5 :: c6 :: c7 :: c8 :: c9 ::
        c10 :: c11 :: c12 :: c13 :: rest)) now =
      { state := decide (16 * v0 + v1 = 3)
        brightness := some ⌊((16 * (v4 : ℤ) + v5 : ℤ) : ℚ) / 100 * 255⌋
        colorTemp := some ⌊(minT : ℚ) + ((maxT : ℚ) - (minT : ℚ)) *
          (((16 * (v6 : ℤ) + v7 : ℤ) : ℚ) / 100)⌋
        rgbColor := some (rgbScale (16 * (v8 : ℤ) + v9), rgbScale (16 * (v10 : ℤ) + v11),
          rgbScale (16 * (v12 : ℤ) + v13))
        lastUpdate := some now
        lastManualControl := st.lastManualControl } := by
  have hpre : rgbcwMarker.isPrefixOf (rgbcwMarker ++ (c0 :: c1 :: c2 :: c3 :: c4 :: c5 ::
      c6 :: c7 :: c8 :: c9 :: c10 :: c11 :: c12 :: c13 :: rest)) = true := rfl
  have hdrop : (rgbcwMarker ++ (c0 :: c1 :: c2 :: c3 :: c4 :: c5 :: c6 :: c7 :: c8 :: c9 ::
      c10 :: c11 :: c12 :: c13 :: rest)).drop 6 = c0 :: c1 :: c2 :: c3 :: c4 :: c5 ::
      c6 :: c7 :: c8 :: c9 :: c10 :: c11 :: c12 :: c13 :: rest := rfl
  rw [parseRGBCWChars, if_pos hpre, hdrop]
  rw [if_neg (by simp)]
  have e0 : (c0 :: c1 :: c2 :: c3 :: c4 :: c5 :: c6 :: c7 :: c8 :: c9 :: c10 :: c11 ::
      c12 :: c13 :: rest).take 2 = [c0, c1] := rfl
  have e4 : ((c0 :: c1 :: c2 :: c3 :: c4 :: c5 :: c6 :: c7 :: c8 :: c9 :: c10 :: c11 ::
      c12 :: c13 :: rest).drop 4).take 2 = [c4, c5] := rfl
  have e6 : ((c0 :: c1 :: c2 :: c3 :: c4 :: c5 :: c6 :: c7 :: c8 :: c9 :: c10 :: c11 ::
      c12 :: c13 :: rest).drop 6).take 2 = [c6, c7] := rfl
  have e8 : ((c0 :: c1 :: c2 :: c3 :: c4 :: c5 :: c6 :: c7 :: c8 :: c9 :: c10 :: c11 ::
      c12 :: c13 :: rest).drop 8).take 2 = [c8, c9] := rfl
  have e10 : ((c0 :: c1 :: c2 :: c3 :: c4 :: c5 :: c6 :: c7 :: c8 :: c9 :: c10 :: c11 ::
      c12 :: c13 :: rest).drop 10).take 2 = [c10, c11] := rfl
  have e12 : ((c0 :: c1 :: c2 :: c3 :: c4 :: c5 :: c6 :: c7 :: c8 :: c9 :: c10 :: c11 ::
      c12 :: c13 :: rest).drop 12).take 2 = [c12, c13] := rfl
  rw [e0, e4, e6, e8, e10, e12, pyIntHex2_pair c4 c5 v4 v5 h4 h5,
    pyIntHex2_pair c6 c7 v6 v7 h6 h7, pyIntHex2_pair c8 c9 v8 v9 h8 h9,
    pyIntHex2_pair c10 c11 v10 v11 h10 h11, pyIntHex2_pair c12 c13 v12 v13 h12 h13]
  simp only [hnd, Bool.false_eq_true, if_false]
  rw [powerPair_eq c0 c1 v0 v1 h0 h1, scale255_eq_floor, tempScale_eq_floor]

/-- C7 counterexample.  A payload with brightness field `0A` (vendor value
10) decodes in the source to `10 * 255 // 100 = 25`, while the claimed
formula `round(10 / 100 * 255)` yields 26. -/
theorem rgbcw_brightness_decode_floors :
    (parseRGBCWChars 2000 6535 ⟨false, none, none, none, none, none⟩
      "RGBCW:03000A32646464".data 0).brightness = some 25 ∧
    round ((10 : ℚ) / 100 * 255) = 26 ∧ (25 : ℤ) ≠ 26 :=
  ⟨rfl, by norm_num [round_eq], by decide⟩

/-- C7 witness: the payload `RGBCW:03046432640a14` (power 03, mode 04,
brightness 100, temperature 50, R 100, G 10, B 20) decodes to on, with the
R, G, B channels scaling to 255, 26, 51. -/
theorem rgbcw_decode_fields_witness :
    charHexVal '0' = some 0 ∧ charHexVal '3' = some 3 ∧
    rgbcwDebounceActive
      ((⟨false, none, none, none, none, none⟩ : RGBCWState).lastManualControl) 0 = false ∧
    parseRGBCWChars 2000 6535 ⟨false, none, none, none, none, none⟩
      (rgbcwMarker ++ ('0' :: '3' :: '0' :: '4' :: '6' :: '4' :: '3' :: '2' :: '6' ::
        '4' :: '0' :: 'a' :: '1' :: '4' :: [])) 0 =
      { state := decide (16 * 0 + 3 = 3)
        brightness := some ⌊((16 * (6 : ℤ) + 4 : ℤ) : ℚ) / 100 * 255⌋
        colorTemp := some ⌊((2000 : ℤ) : ℚ) + (((6535 : ℤ) : ℚ) - ((2000 : ℤ) : ℚ)) *
          (((16 * (3 : ℤ) + 2 : ℤ) : ℚ) / 100)⌋
        rgbColor := some (rgbScale (16 * (6 : ℤ) + 4), rgbScale (16 * (0 : ℤ) + 10),
          rgbScale (16 * (1 : ℤ) + 4))
        lastUpdate := some 0
        lastManualControl :=
          (⟨false, none, none, none, none, none⟩ : RGBCWState).lastManualControl } ∧
    rgbScale 100 = 255 ∧ rgbScale 10 = 26 ∧ rgbScale 20 = 51 :=
  ⟨rfl, rfl, rfl,
   rgbcw_decode_fields 2000 6535 ⟨false, none, none, none, none, none⟩ 0 []
     '0' '3' '0' '4' '6' '4' '3' '2' '6' '4' '0' 'a' '1' '4'
     0 3 6 4 3 2 6 4 0 10 1 4
     rfl rfl rfl rfl rfl rfl rfl rfl rfl rfl rfl rfl rfl rfl rfl,
   by norm_num [rgbScale, pyRoundQ], by norm_num [rgbScale, pyRoundQ],
   by norm_num [rgbScale, pyRoundQ]⟩

/-- C8 counterexample.  The claim says any payload with a non-hex character
in the 14-character field region keeps every previously decoded attribute;
but the mode characters (positions 2-3) are never parsed, so
`RGBCW:03XX6300000000` updates the state (brightness becomes 252) despite
the non-hex `XX` inside the field region. -/
theorem rgbcw_mode_nonhex_still_updates :
    charHexVal 'X' = none ∧
    (parseRGBCWChars 2000 6535 ⟨false, some 7, some 3000, some (1, 2, 3), none, none⟩
      "RGBCW:03XX6300000000".data 0).brightness = some 252 ∧
    (⟨false, some 7, some 3000, some (1, 2, 3), none, none⟩ : RGBCWState).brightness =
      some 7 ∧ (some (252 : ℤ) : Option ℤ) ≠ some 7 :=
  ⟨rfl, rfl, rfl, by decide⟩

/-- C8 amended.  A payload with the wrong marker, with fewer than 14
characters after the marker, or whose five parsed numeric fields (positions
4-13 after the marker) contain a slice rejected by `int(s, 16)`, leaves
every decoded attribute unchanged, and the decode never raises (it is a
total function); non-hex characters confined to the power/mode positions do
not prevent adoption, as the counterexample shows. -/
theorem rgbcw_malformed_fail_soft (minT maxT : ℤ) (st : RGBCWState) (now : ℚ)
    (raw : List Char)
    (hmal : rgbcwMarker.isPrefixOf raw = false ∨ (raw.drop 6).length < 14 ∨
      pyIntHex2 (((raw.drop 6).drop 4).take 2) = none ∨
      pyIntHex2 (((raw.drop 6).drop 6).take 2) = none ∨
      pyIntHex2 (((raw.drop 6).drop 8).take 2) = none ∨
      pyIntHex2 (((raw.drop 6).drop 10).take 2) = none ∨
      pyIntHex2 (((raw.drop 6).drop 12).take 2) = none) :
    parseRGBCWChars minT maxT st raw now = st := by
  by_cases hpre : rgbcwMarker.isPrefixOf raw = true
  · rw [parseRGBCWChars, if_pos hpre]
    by_cases hlen : (raw.drop 6).length < 14
    · rw [if_pos hlen]
    · rw [if_neg hlen]
      have hmal5 : pyIntHex2 (((raw.drop 6).drop 4).take 2) = none ∨
          pyIntHex2 (((raw.drop 6).drop 6).take 2) = none ∨
          pyIntHex2 (((raw.drop 6).drop 8).take 2) = none ∨
          pyIntHex2 (((raw.drop 6).drop 10).take 2) = none ∨
          pyIntHex2 (((raw.drop 6).drop 12).take 2) = none := by
        rcases hmal with h | h | h | h | h | h | h
        · rw [h] at hpre; exact absurd hpre (by simp)
        · exact absurd h hlen
        · exact Or.inl h
        · exact Or.inr (Or.inl h)
        · exact Or.inr (Or.inr (Or.inl h))
        · exact Or.inr (Or.inr (Or.inr (Or.inl h)))
        · exact Or.inr (Or.inr (Or.inr (Or.inr h)))
      rcases q1 : pyIntHex2 (((raw.drop 6).drop 4).take 2) with _ | bv <;>
        rcases q2 : pyIntHex2 (((raw.drop 6).drop 6).take 2) with _ | ctv <;>
        rcases q3 : pyIntHex2 (((raw.drop 6).drop 8).take 2) with _ | rv <;>
        rcases q4 : pyIntHex2 (((raw.drop 6).drop 10).take 2) with _ | gv <;>
        rcases q5 : pyIntHex2 (((raw.drop 6).drop 12).take 2) with _ | bbv <;>
        first
          | rfl
          | (rcases hmal5 with h | h | h | h | h <;> simp_all)
  · rw [parseRGBCWChars, if_neg hpre]

/-- C8 witness: a wrong-marker payload, a short payload, and a payload with
a non-hex brightness field each leave the previous state unchanged. -/
theorem rgbcw_malformed_fail_soft_witness :
    rgbcwMarker.isPrefixOf "XGBCW:03046432640a14".data = false ∧
    parseRGBCWChars 2000 6535 ⟨true, some 5, some 2500, some (9, 9, 9), none, none⟩
      "XGBCW:03046432640a14".data 0 = ⟨true, some 5, some 2500, some (9, 9, 9), none, none⟩ ∧
    ("RGBCW:0304".data.drop 6).length < 14 ∧
    parseRGBCWChars 2000 6535 ⟨true, some 5, some 2500, some (9, 9, 9), none, none⟩
      "RGBCW:0304".data 0 = ⟨true, some 5, some 2500, some (9, 9, 9), none, none⟩ ∧
    pyIntHex2 ((("RGBCW:0300ZZ00000000".data.drop 6).drop 4).take 2) = none ∧
    parseRGBCWChars 2000 6535 ⟨true, some 5, some 2500, some (9, 9, 9), none, none⟩
      "RGBCW:0300ZZ00000000".data 0 = ⟨true, some 5, some 2500, some (9, 9, 9), none, none⟩ :=
  ⟨rfl,
   rgbcw_malformed_fail_soft 2000 6535 ⟨true, some 5, some 2500, some (9, 9, 9), none, none⟩
     0 "XGBCW:03046432640a14".data (Or.inl rfl),
   by decide,
   rgbcw_malformed_fail_soft 2000 6535 ⟨true, some 5, some 2500, some (9, 9, 9), none, none⟩
     0 "RGBCW:0304".data (Or.inr (Or.inl (by decide))),
   rfl,
   rgbcw_malformed_fail_soft 2000 6535 ⟨true, some 5, some 2500, some (9, 9, 9), none, none⟩
     0 "RGBCW:0300ZZ00000000".data (Or.inr (Or.inr (Or.inl rfl)))⟩
